import Mathlib

/-! Shallow embedding of `src/stream_capture.py` (class `StreamCapture`).

The two capture loops, `execute_capture` (primary) and
`capture_generic_frames` (fallback), are modelled as a deterministic step
machine over `EngineState`, driven by one `StepInput` per loop iteration.
A `StepInput` supplies the oracle values the code obtains from its
environment during that iteration: the outcome of `cap.read()`, the wall
clock (`datetime.now()`, modelled in whole seconds as an integer), and the
result of `select_quality_based_on_speed` (an external speedtest plus
streamlink call) whenever that call happens within the iteration.

Event counters (`opens`, `closes`, `selects`, `reads_primary`,
`reads_fallback`) and the emitted frames (stored newest first, each tagged
with the mode that emitted it) are accumulated in the state so that
resource-lifecycle and temporal claims can be stated as properties of runs.

`leaked` counts handles that `initialise_stream` overwrote while they were
still referenced, i.e. `self.cap` was reassigned without a prior
`release_resources`, so no explicit `release()` is ever issued for the old
handle.

Neither Python generator has a `try/finally`: the
`await self.release_resources()` placed after the infinite `while True`
loop of `execute_capture` is unreachable (the loop body never breaks, and
the fallback handoff exits with `return` from inside the loop).  Consumer
cancellation therefore executes no cleanup code in the generator; a run of
the machine simply stops after the last consumed iteration, which `run`
over a finite input list models faithfully.

`select_quality_based_on_speed` is also modelled as a pure function of the
measured download speed (in Mbps, as a rational) and the resolved quality
mapping (an association list from quality label to stream URL), mirroring
the preference-ladder code literally. -/

namespace StreamCapture

/-- Mode of an engine run: the primary loop of `execute_capture`, the
fallback loop of `capture_generic_frames`, or a finished generator. -/
inductive Mode where
  | primary
  | fallback
  | done
  deriving DecidableEq, Repr

/-- Environment oracle for one loop iteration: the result of `cap.read()`
(`readOk` is true when `ret` is true and the frame is not `None`), the
current wall-clock time, and the value an in-iteration call to
`select_quality_based_on_speed` would return (`none` models Python
`None`; an empty string is also falsy for the `if not stream_url` tests). -/
structure StepInput where
  readOk : Bool
  now : Int
  selectResult : Option String
  deriving DecidableEq, Repr

/-- State of one `StreamCapture` engine instance together with the
accumulated observable events of the run. -/
structure EngineState where
  stream_url : String
  cap : Bool
  cap_url : Option String
  successfully_captured : Bool
  fail_count : Nat
  last_process_time : Int
  capture_interval : Int
  mode : Mode
  opens : Nat
  closes : Nat
  leaked : Nat
  selects : Nat
  reads_primary : Nat
  reads_fallback : Nat
  frames : List (Int × Mode)
  deriving DecidableEq, Repr

/-- Python truthiness test `if not stream_url` on `str | None`. -/
def isFalsy : Option String → Bool
  | none => true
  | some u => u.isEmpty

/-- `initialise_stream`: assigns `self.cap = cv2.VideoCapture(url)`.  One
open event per call (the internal retry reopens the same object).  If a
handle was still referenced, it is overwritten without a `release()` call,
which the `leaked` counter records. -/
def initialise_stream (s : EngineState) (url : String) : EngineState :=
  { s with cap := true, cap_url := some url, opens := s.opens + 1,
           leaked := s.leaked + (if s.cap then 1 else 0) }

/-- `release_resources`: releases the capture object when one is held and
sets `self.cap = None`; otherwise does nothing. -/
def release_resources (s : EngineState) : EngineState :=
  if s.cap then { s with cap := false, cap_url := none, closes := s.closes + 1 }
  else s

/-- The shared interval gate of both loops: if `capture_interval` seconds
have elapsed since `last_process_time`, record the new emission time and
yield the frame tagged with the current mode. -/
def emit_gate (s : EngineState) (now : Int) : EngineState :=
  if s.capture_interval ≤ now - s.last_process_time then
    { s with last_process_time := now, frames := (now, s.mode) :: s.frames }
  else s

/-- Entry of `capture_generic_frames`: call
`select_quality_based_on_speed` (one select event); if the result is falsy
the generator returns at once (mode `done`), otherwise it initialises the
stream on the selected URL (overwriting the handle the primary loop had
just reopened), sets `last_process_time` to the current time, and starts
the fallback loop with a fresh failure counter. -/
def generic_init (s : EngineState) (inp : StepInput) : EngineState :=
  let s1 := { s with selects := s.selects + 1 }
  if isFalsy inp.selectResult then { s1 with mode := Mode.done }
  else
    { initialise_stream s1 (inp.selectResult.getD ("")) with
      mode := Mode.fallback, last_process_time := inp.now, fail_count := 0 }

/-- One iteration of the `while True` loop of `execute_capture`: reopen if
no handle is referenced, read, and either (on failure) bump `fail_count`,
release and reopen the primary source, handing off to
`capture_generic_frames` when `fail_count >= 5` with no prior success, or
(on success) reset `fail_count`, mark `successfully_captured`, and run the
interval gate. -/
def primary_step (s : EngineState) (inp : StepInput) : EngineState :=
  let s0 := if s.cap then s else initialise_stream s s.stream_url
  let s1 := { s0 with reads_primary := s0.reads_primary + 1 }
  if inp.readOk then
    emit_gate { s1 with fail_count := 0, successfully_captured := true } inp.now
  else
    let s2 := initialise_stream (release_resources
      { s1 with fail_count := s1.fail_count + 1 }) s1.stream_url
    if 5 ≤ s2.fail_count ∧ s2.successfully_captured = false then
      generic_init s2 inp
    else s2

/-- One iteration of the `while True` loop of `capture_generic_frames`:
read only if a handle is referenced (otherwise the iteration sees
`(False, None)`); on failure bump `fail_count` and, when `fail_count >= 5`
with `successfully_captured` still false, release the handle, re-select a
quality (continuing with no handle if that fails), and reopen with a fresh
failure counter; on success reset `fail_count`, mark
`successfully_captured`, and run the interval gate. -/
def fallback_step (s : EngineState) (inp : StepInput) : EngineState :=
  let s0 := if s.cap then { s with reads_fallback := s.reads_fallback + 1 } else s
  if s0.cap && inp.readOk then
    emit_gate { s0 with fail_count := 0, successfully_captured := true } inp.now
  else
    let s1 := { s0 with fail_count := s0.fail_count + 1 }
    if 5 ≤ s1.fail_count ∧ s1.successfully_captured = false then
      let s2 := { release_resources s1 with selects := s1.selects + 1 }
      if isFalsy inp.selectResult then s2
      else { initialise_stream s2 (inp.selectResult.getD ("")) with fail_count := 0 }
    else s1

/-- One machine step: dispatch on the mode; a finished generator does
nothing. -/
def step (s : EngineState) (inp : StepInput) : EngineState :=
  match s.mode with
  | Mode.primary => primary_step s inp
  | Mode.fallback => fallback_step s inp
  | Mode.done => s

/-- Run the machine over a finite list of iteration inputs; the list
ending models the consumer ceasing to pull from the generator (including
cancellation), which executes no further generator code. -/
def run (s : EngineState) : List StepInput → EngineState
  | [] => s
  | inp :: rest => run (step s inp) rest

/-- The state right after `StreamCapture.__init__`. -/
def mk_engine (url : String) (T : Int) : EngineState :=
  { stream_url := url, cap := false, cap_url := none,
    successfully_captured := false, fail_count := 0, last_process_time := 0,
    capture_interval := T, mode := Mode.primary, opens := 0, closes := 0,
    leaked := 0, selects := 0, reads_primary := 0, reads_fallback := 0,
    frames := [] }

/-- The state at the top of the `while True` loop of `execute_capture` on
a fresh engine: the stream has been initialised once and
`last_process_time` set to `now - capture_interval`. -/
def execute_capture_start (url : String) (t0 T : Int) : EngineState :=
  { initialise_stream (mk_engine url T) url with last_process_time := t0 - T }

/-- The preference ladder of `select_quality_based_on_speed`, keyed on the
measured download speed in Mbps. -/
def preferred_for (download_speed : ℚ) : List String :=
  if 10 < download_speed then
    ["best", "1080p", "720p", "480p", "360p", "240p", "worst"]
  else if 5 < download_speed ∧ download_speed ≤ 10 then
    ["720p", "480p", "360p", "240p", "worst"]
  else
    ["480p", "360p", "240p", "worst"]

/-- `select_quality_based_on_speed`, as a function of the measured
download speed and the resolved quality mapping (association list from
label to URL): return the URL of the first preferred label present among
the available qualities, or `none` when no candidate matches (the raised
exception is caught and turned into `None`). -/
def select_quality_based_on_speed (download_speed : ℚ)
    (streams : List (String × String)) : Option String :=
  let available_qualities := streams.map Prod.fst
  ((preferred_for download_speed).find?
    (fun q => available_qualities.contains q)).bind
    (fun q => streams.lookup q)

/-- Spec-side helper for the quality-selection claim: the URL of the first
label of `ladder` present in the mapping, if any. -/
def first_available (ladder : List String)
    (streams : List (String × String)) : Option String :=
  (ladder.find? (fun q => (streams.map Prod.fst).contains q)).bind
    (fun q => streams.lookup q)


/-- Two frames of the trace (newer first) emitted by the same loop are at
least the capture interval apart. -/
def sameLoopGap (T : Int) (a b : Int × Mode) : Prop :=
  b.2 = a.2 → T ≤ a.1 - b.1

/-- Invariant carrying the interval-gate guarantee through a run. -/
def gate_inv (s : EngineState) : Prop :=
  List.Chain' (sameLoopGap s.capture_interval) s.frames ∧
  (∀ t m, s.frames.head? = some (t, m) → m = s.mode → s.last_process_time = t) ∧
  (s.mode = Mode.primary → ∀ f ∈ s.frames, f.2 = Mode.primary)

/-- Resource-lifecycle invariant: open events balance close events plus
the currently referenced handle plus the handles leaked by overwriting;
the primary loop never leaks and always holds a handle at the top of the
loop, and entering the fallback loop leaks exactly one handle. -/
def lifecycle_inv (s : EngineState) : Prop :=
  s.opens = s.closes + (if s.cap then 1 else 0) + s.leaked ∧
  (s.mode = Mode.primary → s.leaked = 0 ∧ s.cap = true) ∧
  (s.mode = Mode.fallback → s.leaked = 1) ∧
  (s.mode = Mode.done → s.leaked ≤ 1)

theorem step_primary (s : EngineState) (i : StepInput) (h : s.mode = Mode.primary) :
    step s i = primary_step s i := by
  unfold step
  rw [h]

theorem step_fallback (s : EngineState) (i : StepInput) (h : s.mode = Mode.fallback) :
    step s i = fallback_step s i := by
  unfold step
  rw [h]

theorem step_of_done (s : EngineState) (i : StepInput) (h : s.mode = Mode.done) :
    step s i = s := by
  unfold step
  rw [h]

theorem run_of_done (s : EngineState) (l : List StepInput) (h : s.mode = Mode.done) :
    run s l = s := by
  induction l with
  | nil => rfl
  | cons i rest ih =>
      show run (step s i) rest = s
      rw [step_of_done s i h, ih]

theorem fallback_step_mode (s : EngineState) (i : StepInput) :
    (fallback_step s i).mode = s.mode := by
  simp only [fallback_step, emit_gate, release_resources, initialise_stream]
  split_ifs <;> rfl

theorem fallback_step_reads_primary (s : EngineState) (i : StepInput) :
    (fallback_step s i).reads_primary = s.reads_primary := by
  simp only [fallback_step, emit_gate, release_resources, initialise_stream]
  split_ifs <;> rfl

theorem fallback_step_frames_cases (s : EngineState) (i : StepInput) :
    (fallback_step s i).frames = s.frames ∨
    (fallback_step s i).frames = (i.now, s.mode) :: s.frames := by
  simp only [fallback_step, emit_gate, release_resources, initialise_stream]
  split_ifs <;> simp

theorem step_capture_interval (s : EngineState) (i : StepInput) :
    (step s i).capture_interval = s.capture_interval := by
  unfold step
  cases h : s.mode
  · simp only [primary_step, generic_init, emit_gate, release_resources,
      initialise_stream]
    split_ifs <;> rfl
  · simp only [fallback_step, emit_gate, release_resources, initialise_stream]
    split_ifs <;> rfl
  · rfl

theorem run_capture_interval (l : List StepInput) (s : EngineState) :
    (run s l).capture_interval = s.capture_interval := by
  induction l generalizing s with
  | nil => rfl
  | cons i rest ih =>
      show (run (step s i) rest).capture_interval = s.capture_interval
      rw [ih, step_capture_interval]


theorem primary_fail_no_handoff (s : EngineState) (i : StepInput)
    (hm : s.mode = Mode.primary) (hr : i.readOk = false)
    (hg : ¬ (5 ≤ s.fail_count + 1 ∧ s.successfully_captured = false)) :
    step s i =
      { s with
        cap := true
        cap_url := some s.stream_url
        fail_count := s.fail_count + 1
        opens := s.opens + (if s.cap then 1 else 2)
        closes := s.closes + 1
        reads_primary := s.reads_primary + 1 } := by
  rw [step_primary s i hm]
  simp only [primary_step, hr, Bool.false_eq_true, if_false, release_resources,
    initialise_stream]
  split_ifs <;> simp_all

theorem primary_fail_progress (s : EngineState) (i : StepInput)
    (hm : s.mode = Mode.primary) (hs : s.successfully_captured = false)
    (hr : i.readOk = false) (hlt : s.fail_count + 1 < 5) :
    (step s i).mode = Mode.primary ∧
    (step s i).successfully_captured = false ∧
    (step s i).fail_count = s.fail_count + 1 := by
  rw [primary_fail_no_handoff s i hm hr (fun h => absurd h.1 (by omega))]
  exact ⟨hm, hs, rfl⟩

theorem primary_fail_handoff_mode (s : EngineState) (i : StepInput)
    (hm : s.mode = Mode.primary) (hr : i.readOk = false)
    (hc : 5 ≤ s.fail_count + 1) (hs : s.successfully_captured = false) :
    (step s i).mode = (if isFalsy i.selectResult then Mode.done else Mode.fallback) ∧
    (step s i).selects = s.selects + 1 := by
  rw [step_primary s i hm]
  simp only [primary_step, hr, Bool.false_eq_true, if_false, release_resources,
    initialise_stream, generic_init]
  split_ifs <;> simp_all

theorem primary_step_stays_primary (s : EngineState) (i : StepInput)
    (hm : s.mode = Mode.primary) (hs : s.successfully_captured = true) :
    (step s i).mode = Mode.primary ∧ (step s i).successfully_captured = true := by
  rw [step_primary s i hm]
  simp only [primary_step, emit_gate, release_resources, initialise_stream,
    generic_init]
  split_ifs <;> simp_all

theorem run_stays_primary (l : List StepInput) (s : EngineState)
    (hm : s.mode = Mode.primary) (hs : s.successfully_captured = true) :
    (run s l).mode = Mode.primary ∧ (run s l).successfully_captured = true := by
  induction l generalizing s with
  | nil => exact ⟨hm, hs⟩
  | cons i rest ih =>
      obtain ⟨h1, h2⟩ := primary_step_stays_primary s i hm hs
      exact ih (step s i) h1 h2

theorem fallback_fail_after_success (s : EngineState) (i : StepInput)
    (hm : s.mode = Mode.fallback) (hs : s.successfully_captured = true)
    (hr : i.readOk = false) :
    step s i =
      { s with
        fail_count := s.fail_count + 1
        reads_fallback := s.reads_fallback + (if s.cap then 1 else 0) } := by
  rw [step_fallback s i hm]
  simp only [fallback_step, hr, Bool.and_false, hs]
  split_ifs with h1 h2 h3 <;> simp_all

theorem step_nonprimary (s : EngineState) (i : StepInput)
    (h : s.mode ≠ Mode.primary) :
    (step s i).mode = s.mode ∧ (step s i).reads_primary = s.reads_primary ∧
    ∃ suffix, (step s i).frames = suffix ++ s.frames ∧
      suffix.all (fun f => f.2 == Mode.fallback) = true := by
  cases hm : s.mode with
  | primary => exact absurd hm h
  | fallback =>
      rw [step_fallback s i hm]
      refine ⟨by rw [fallback_step_mode]; exact hm, fallback_step_reads_primary s i, ?_⟩
      rcases fallback_step_frames_cases s i with hf | hf
      · exact ⟨[], by simpa using hf, rfl⟩
      · exact ⟨[(i.now, s.mode)], by simpa using hf, by simp [hm]⟩
  | done =>
      rw [step_of_done s i hm]
      exact ⟨hm, rfl, [], by simp, rfl⟩

theorem run_nonprimary (l : List StepInput) (s : EngineState)
    (h : s.mode ≠ Mode.primary) :
    (run s l).mode = s.mode ∧ (run s l).reads_primary = s.reads_primary ∧
    ∃ suffix, (run s l).frames = suffix ++ s.frames ∧
      suffix.all (fun f => f.2 == Mode.fallback) = true := by
  induction l generalizing s with
  | nil => exact ⟨rfl, rfl, [], rfl, rfl⟩
  | cons i rest ih =>
      obtain ⟨hm1, hr1, suf1, hf1, ha1⟩ := step_nonprimary s i h
      obtain ⟨hm2, hr2, suf2, hf2, ha2⟩ := ih (step s i) (by rw [hm1]; exact h)
      refine ⟨by rw [show run s (i :: rest) = run (step s i) rest from rfl, hm2, hm1],
        by rw [show run s (i :: rest) = run (step s i) rest from rfl, hr2, hr1], suf2 ++ suf1, ?_, ?_⟩
      · rw [show run s (i :: rest) = run (step s i) rest from rfl, hf2, hf1,
          List.append_assoc]
      · rw [List.all_append, ha1, ha2]
        rfl


theorem step_trace_cases (s : EngineState) (i : StepInput) :
    ((step s i).frames = s.frames ∧
      (step s i).last_process_time = s.last_process_time ∧
      (step s i).mode = s.mode) ∨
    ((step s i).frames = (i.now, s.mode) :: s.frames ∧
      (step s i).last_process_time = i.now ∧ (step s i).mode = s.mode ∧
      s.capture_interval ≤ i.now - s.last_process_time) ∨
    ((step s i).frames = s.frames ∧ s.mode = Mode.primary ∧
      (step s i).mode ≠ Mode.primary) := by
  cases hm : s.mode with
  | primary =>
      rw [step_primary s i hm]
      simp only [primary_step, generic_init, emit_gate, release_resources,
        initialise_stream, hm]
      split_ifs <;> simp_all
  | fallback =>
      rw [step_fallback s i hm]
      simp only [fallback_step, emit_gate, release_resources,
        initialise_stream, hm]
      split_ifs <;> simp_all
  | done =>
      rw [step_of_done s i hm]
      exact Or.inl ⟨rfl, rfl, hm⟩

theorem gate_inv_step (s : EngineState) (i : StepInput) (h : gate_inv s) :
    gate_inv (step s i) := by
  obtain ⟨hch, hhd, hpr⟩ := h
  have hT := step_capture_interval s i
  rcases step_trace_cases s i with ⟨hf, hl, hm⟩ | ⟨hf, hl, hm, hg⟩ | ⟨hf, hm, hnp⟩
  · refine ⟨by rw [hT, hf]; exact hch, ?_, ?_⟩
    · intro t m hhead hmm
      rw [hl]
      exact hhd t m (by rw [hf] at hhead; exact hhead) (by rw [hm] at hmm; exact hmm)
    · intro hp f hfmem
      rw [hm] at hp
      exact hpr hp f (by rw [hf] at hfmem; exact hfmem)
  · refine ⟨?_, ?_, ?_⟩
    · rw [hT, hf, List.chain'_cons']
      refine ⟨?_, hch⟩
      intro b hb
      intro hbm
      have := hhd b.1 b.2 (by rw [← hb]) hbm
      rw [this] at hg
      exact hg
    · intro t m hhead hmm
      rw [hf] at hhead
      simp only [List.head?_cons, Option.some.injEq, Prod.mk.injEq] at hhead
      rw [hl, hhead.1]
    · intro hp f hfmem
      rw [hm] at hp
      rw [hf] at hfmem
      rcases List.mem_cons.mp hfmem with hfeq | hfmem2
      · rw [hfeq, hp]
      · exact hpr hp f hfmem2
  · refine ⟨by rw [hT, hf]; exact hch, ?_, ?_⟩
    · intro t m hhead hmm
      rw [hf] at hhead
      have hmem : (t, m) ∈ s.frames := by
        cases hsf : s.frames with
        | nil => rw [hsf] at hhead; simp at hhead
        | cons a l =>
            rw [hsf] at hhead
            simp only [List.head?_cons, Option.some.injEq] at hhead
            simp [hsf, ← hhead]
      have : m = Mode.primary := hpr hm (t, m) hmem
      rw [this] at hmm
      exact absurd hmm.symm hnp
    · intro hp
      exact absurd hp hnp

theorem gate_inv_run (l : List StepInput) (s : EngineState) (h : gate_inv s) :
    gate_inv (run s l) := by
  induction l generalizing s with
  | nil => exact h
  | cons i rest ih => exact ih (step s i) (gate_inv_step s i h)


theorem lifecycle_inv_step (s : EngineState) (i : StepInput)
    (h : lifecycle_inv s) : lifecycle_inv (step s i) := by
  obtain ⟨hbal, hp, hf, hd⟩ := h
  cases hm : s.mode with
  | primary =>
      obtain ⟨hl0, hc1⟩ := hp hm
      rw [step_primary s i hm]
      simp only [primary_step, generic_init, emit_gate, release_resources,
        initialise_stream, lifecycle_inv, hm, hc1, hl0]
      split_ifs <;> simp_all
  | fallback =>
      have hl1 := hf hm
      rw [step_fallback s i hm]
      simp only [fallback_step, emit_gate, release_resources,
        initialise_stream, lifecycle_inv, hm, hl1]
      split_ifs <;> simp_all
  | done =>
      rw [step_of_done s i hm]
      exact ⟨hbal, hp, hf, hd⟩

theorem lifecycle_inv_run (l : List StepInput) (s : EngineState)
    (h : lifecycle_inv s) : lifecycle_inv (run s l) := by
  induction l generalizing s with
  | nil => exact h
  | cons i rest ih => exact ih (step s i) (lifecycle_inv_step s i h)

theorem lifecycle_inv_start (url : String) (t0 T : Int) :
    lifecycle_inv (execute_capture_start url t0 T) := by
  refine ⟨?_, ?_, ?_, ?_⟩ <;> simp [execute_capture_start, mk_engine,
    initialise_stream, lifecycle_inv]


/-- C9: release_resources is idempotent: on a released engine it is a
no-op, releasing twice equals releasing once, and at most one close call
is issued per open handle. -/
theorem release_resources_idempotent (s t : EngineState) (ht : t.cap = false) :
    release_resources (release_resources s) = release_resources s ∧
    release_resources t = t ∧
    (release_resources (release_resources s)).closes ≤ s.closes + 1 := by
  by_cases hc : s.cap <;>
    refine ⟨?_, ?_, ?_⟩ <;> simp [release_resources, hc, ht]

theorem release_resources_idempotent_witness :
    (mk_engine ("p") 15).cap = false ∧
    (release_resources (release_resources (execute_capture_start ("p") 0 15)) =
      release_resources (execute_capture_start ("p") 0 15) ∧
    release_resources (mk_engine ("p") 15) = mk_engine ("p") 15 ∧
    (release_resources (release_resources
      (execute_capture_start ("p") 0 15))).closes ≤
      (execute_capture_start ("p") 0 15).closes + 1) :=
  ⟨rfl, release_resources_idempotent (execute_capture_start ("p") 0 15)
    (mk_engine ("p") 15) rfl⟩

/-- C10: in the fallback loop, once a read has succeeded
(successfully_captured is true), consecutive read failures only increment
the failure counter: the handle is never released, bandwidth is never
re-probed, quality is never re-resolved (no select call), the stream is
never reopened, and no frame is emitted. -/
theorem fallback_failure_after_success_no_recovery (s : EngineState)
    (l : List StepInput) (hm : s.mode = Mode.fallback)
    (hs : s.successfully_captured = true) (hl : ∀ i ∈ l, i.readOk = false) :
    (run s l).fail_count = s.fail_count + l.length ∧
    (run s l).frames = s.frames ∧ (run s l).opens = s.opens ∧
    (run s l).closes = s.closes ∧ (run s l).selects = s.selects ∧
    (run s l).cap = s.cap ∧ (run s l).cap_url = s.cap_url ∧
    (run s l).mode = Mode.fallback ∧
    (run s l).successfully_captured = true := by
  induction l generalizing s with
  | nil => exact ⟨by simp [run], rfl, rfl, rfl, rfl, rfl, rfl, hm, hs⟩
  | cons i rest ih =>
      have hi : i.readOk = false := hl i (List.mem_cons_self i rest)
      have he := fallback_fail_after_success s i hm hs hi
      have hrest : ∀ j ∈ rest, j.readOk = false :=
        fun j hj => hl j (List.mem_cons_of_mem i hj)
      have hstep : run s (i :: rest) = run (step s i) rest := rfl
      obtain ⟨c1, c2, c3, c4, c5, c6, c7, c8, c9⟩ :=
        ih (step s i) (by rw [he]; exact hm) (by rw [he]; exact hs) hrest
      rw [hstep]
      refine ⟨?_, ?_, ?_, ?_, ?_, ?_, ?_, c8, c9⟩
      · rw [c1, he]
        simp only [List.length_cons]
        omega
      · rw [c2, he]
      · rw [c3, he]
      · rw [c4, he]
      · rw [c5, he]
      · rw [c6, he]
      · rw [c7, he]


theorem fallback_failure_after_success_no_recovery_witness :
    (run (execute_capture_start ("p") 0 15)
        [⟨false, 1, none⟩, ⟨false, 2, none⟩, ⟨false, 3, none⟩, ⟨false, 4, none⟩,
         ⟨false, 100, some ("u")⟩, ⟨true, 200, none⟩]).mode = Mode.fallback ∧
    (run (run (execute_capture_start ("p") 0 15)
        [⟨false, 1, none⟩, ⟨false, 2, none⟩, ⟨false, 3, none⟩, ⟨false, 4, none⟩,
         ⟨false, 100, some ("u")⟩, ⟨true, 200, none⟩])
      [⟨false, 300, none⟩, ⟨false, 301, none⟩]).fail_count =
      (run (execute_capture_start ("p") 0 15)
        [⟨false, 1, none⟩, ⟨false, 2, none⟩, ⟨false, 3, none⟩, ⟨false, 4, none⟩,
         ⟨false, 100, some ("u")⟩, ⟨true, 200, none⟩]).fail_count + 2 ∧
    (run (run (execute_capture_start ("p") 0 15)
        [⟨false, 1, none⟩, ⟨false, 2, none⟩, ⟨false, 3, none⟩, ⟨false, 4, none⟩,
         ⟨false, 100, some ("u")⟩, ⟨true, 200, none⟩])
      [⟨false, 300, none⟩, ⟨false, 301, none⟩]).selects =
      (run (execute_capture_start ("p") 0 15)
        [⟨false, 1, none⟩, ⟨false, 2, none⟩, ⟨false, 3, none⟩, ⟨false, 4, none⟩,
         ⟨false, 100, some ("u")⟩, ⟨true, 200, none⟩]).selects := by
  have h := fallback_failure_after_success_no_recovery
    (run (execute_capture_start ("p") 0 15)
      [⟨false, 1, none⟩, ⟨false, 2, none⟩, ⟨false, 3, none⟩, ⟨false, 4, none⟩,
       ⟨false, 100, some ("u")⟩, ⟨true, 200, none⟩])
    [⟨false, 300, none⟩, ⟨false, 301, none⟩] (by decide) (by decide) (by decide)
  exact ⟨by decide, h.1, h.2.2.2.2.1⟩

/-- C2: once the primary loop has seen a successful read, no number of
subsequent consecutive read failures ever triggers the fallback handoff,
and each failed read releases and reopens the handle against the primary
source. -/
theorem no_fallback_after_primary_success (s : EngineState)
    (l : List StepInput) (i : StepInput)
    (hm : s.mode = Mode.primary) (hs : s.successfully_captured = true)
    (hr : i.readOk = false) :
    (run s l).mode = Mode.primary ∧
    (run s l).successfully_captured = true ∧
    (step s i).mode = Mode.primary ∧
    (step s i).closes = s.closes + 1 ∧
    (step s i).opens = s.opens + (if s.cap then 1 else 2) ∧
    (step s i).cap = true ∧
    (step s i).cap_url = some s.stream_url := by
  obtain ⟨h1, h2⟩ := run_stays_primary l s hm hs
  have he := primary_fail_no_handoff s i hm hr (by simp [hs])
  rw [he]
  exact ⟨h1, h2, hm, rfl, rfl, rfl, rfl⟩

theorem no_fallback_after_primary_success_witness :
    (run (run (execute_capture_start ("p") 0 15) [⟨true, 0, none⟩])
      [⟨false, 1, none⟩, ⟨false, 2, none⟩, ⟨false, 3, none⟩, ⟨false, 4, none⟩,
       ⟨false, 5, none⟩, ⟨false, 6, none⟩, ⟨false, 7, none⟩]).mode =
      Mode.primary ∧
    (step (run (execute_capture_start ("p") 0 15) [⟨true, 0, none⟩])
      ⟨false, 1, none⟩).closes =
      (run (execute_capture_start ("p") 0 15) [⟨true, 0, none⟩]).closes + 1 := by
  have h := no_fallback_after_primary_success
    (run (execute_capture_start ("p") 0 15) [⟨true, 0, none⟩])
    [⟨false, 1, none⟩, ⟨false, 2, none⟩, ⟨false, 3, none⟩, ⟨false, 4, none⟩,
     ⟨false, 5, none⟩, ⟨false, 6, none⟩, ⟨false, 7, none⟩]
    ⟨false, 1, none⟩ (by decide) (by decide) rfl
  exact ⟨h.1, h.2.2.2.1⟩


/-- C1: from a primary-loop state with no prior success and a fresh
failure streak, exactly 5 consecutive read failures hand control off
permanently: the engine is no longer in primary mode, the primary loop
performs no further reads however the run continues, and every frame
emitted afterwards is tagged as coming from the fallback loop. -/
theorem handoff_after_five_failures_is_permanent (s : EngineState)
    (i1 i2 i3 i4 i5 : StepInput) (more : List StepInput)
    (hm : s.mode = Mode.primary) (hs : s.successfully_captured = false)
    (hf : s.fail_count = 0)
    (h1 : i1.readOk = false) (h2 : i2.readOk = false) (h3 : i3.readOk = false)
    (h4 : i4.readOk = false) (h5 : i5.readOk = false) :
    (run s [i1, i2, i3, i4, i5]).mode ≠ Mode.primary ∧
    (run (run s [i1, i2, i3, i4, i5]) more).reads_primary =
      (run s [i1, i2, i3, i4, i5]).reads_primary ∧
    ∃ suffix, (run (run s [i1, i2, i3, i4, i5]) more).frames =
        suffix ++ (run s [i1, i2, i3, i4, i5]).frames ∧
      suffix.all (fun f => f.2 == Mode.fallback) = true := by
  obtain ⟨m1, s1, f1⟩ := primary_fail_progress s i1 hm hs h1 (by omega)
  obtain ⟨m2, s2c, f2⟩ := primary_fail_progress _ i2 m1 s1 h2 (by omega)
  obtain ⟨m3, s3c, f3⟩ := primary_fail_progress _ i3 m2 s2c h3 (by omega)
  obtain ⟨m4, s4c, f4⟩ := primary_fail_progress _ i4 m3 s3c h4 (by omega)
  have hmode5 :
      (step (step (step (step (step s i1) i2) i3) i4) i5).mode ≠
        Mode.primary := by
    obtain ⟨hmo, _⟩ := primary_fail_handoff_mode _ i5 m4 h5 (by omega) s4c
    rw [hmo]
    split <;> simp
  have hrun : run s [i1, i2, i3, i4, i5]
      = step (step (step (step (step s i1) i2) i3) i4) i5 := rfl
  rw [hrun]
  obtain ⟨hmo2, hrd, suf, hfr, hall⟩ := run_nonprimary more _ hmode5
  exact ⟨hmode5, hrd, suf, hfr, hall⟩

theorem handoff_after_five_failures_is_permanent_witness :
    (run (execute_capture_start ("p") 0 15)
      [⟨false, 1, none⟩, ⟨false, 2, none⟩, ⟨false, 3, none⟩, ⟨false, 4, none⟩,
       ⟨false, 100, some ("u")⟩]).mode ≠ Mode.primary ∧
    (run (run (execute_capture_start ("p") 0 15)
        [⟨false, 1, none⟩, ⟨false, 2, none⟩, ⟨false, 3, none⟩, ⟨false, 4, none⟩,
         ⟨false, 100, some ("u")⟩]) [⟨true, 200, none⟩]).reads_primary =
      (run (execute_capture_start ("p") 0 15)
        [⟨false, 1, none⟩, ⟨false, 2, none⟩, ⟨false, 3, none⟩, ⟨false, 4, none⟩,
         ⟨false, 100, some ("u")⟩]).reads_primary ∧
    ∃ suffix, (run (run (execute_capture_start ("p") 0 15)
        [⟨false, 1, none⟩, ⟨false, 2, none⟩, ⟨false, 3, none⟩, ⟨false, 4, none⟩,
         ⟨false, 100, some ("u")⟩]) [⟨true, 200, none⟩]).frames =
        suffix ++ (run (execute_capture_start ("p") 0 15)
          [⟨false, 1, none⟩, ⟨false, 2, none⟩, ⟨false, 3, none⟩, ⟨false, 4, none⟩,
           ⟨false, 100, some ("u")⟩]).frames ∧
      suffix.all (fun f => f.2 == Mode.fallback) = true :=
  handoff_after_five_failures_is_permanent (execute_capture_start ("p") 0 15)
    ⟨false, 1, none⟩ ⟨false, 2, none⟩ ⟨false, 3, none⟩ ⟨false, 4, none⟩
    ⟨false, 100, some ("u")⟩ [⟨true, 200, none⟩]
    rfl rfl rfl rfl rfl rfl rfl rfl


/-- C3: with a fixed capture interval T, any two consecutive frames of the
emitted trace (stored newest first) that were emitted by the same loop are
at least T apart; only the pair straddling the primary-to-fallback handoff
is exempted by the mode guard in sameLoopGap. -/
theorem interval_gate_chain (url : String) (t0 T : Int)
    (l : List StepInput) :
    List.Chain' (sameLoopGap T)
      (run (execute_capture_start url t0 T) l).frames := by
  have h0 : gate_inv (execute_capture_start url t0 T) := by
    refine ⟨?_, ?_, ?_⟩ <;>
      simp [execute_capture_start, mk_engine, initialise_stream, gate_inv]
  have h := gate_inv_run l _ h0
  have hT : (run (execute_capture_start url t0 T) l).capture_interval = T := by
    rw [run_capture_interval]
    rfl
  have h1 := h.1
  rw [hT] at h1
  exact h1

/-- C4: quality selection is the deterministic first-match over the
speed-keyed preference ladder, and fails when no candidate is present. -/
theorem select_quality_ladder_spec (speed : ℚ)
    (streams : List (String × String)) :
    (10 < speed →
      select_quality_based_on_speed speed streams =
        first_available
          ["best", "1080p", "720p", "480p", "360p", "240p", "worst"] streams) ∧
    (5 < speed ∧ speed ≤ 10 →
      select_quality_based_on_speed speed streams =
        first_available ["720p", "480p", "360p", "240p", "worst"] streams) ∧
    (speed ≤ 5 →
      select_quality_based_on_speed speed streams =
        first_available ["480p", "360p", "240p", "worst"] streams) ∧
    ((preferred_for speed).all
        (fun q => !(streams.map Prod.fst).contains q) = true →
      select_quality_based_on_speed speed streams = none) := by
  refine ⟨?_, ?_, ?_, ?_⟩
  · intro h
    simp only [select_quality_based_on_speed, first_available, preferred_for,
      if_pos h]
  · rintro ⟨h1, h2⟩
    simp only [select_quality_based_on_speed, first_available, preferred_for,
      if_neg (by linarith : ¬ 10 < speed), if_pos (And.intro h1 h2)]
  · intro h
    simp only [select_quality_based_on_speed, first_available, preferred_for,
      if_neg (by linarith : ¬ 10 < speed),
      if_neg (by rintro ⟨h1, _⟩; linarith : ¬ (5 < speed ∧ speed ≤ 10))]
  · intro h
    have hnone : (preferred_for speed).find?
        (fun q => (streams.map Prod.fst).contains q) = none := by
      rw [List.find?_eq_none]
      intro q hq
      have := List.all_eq_true.mp h q hq
      simpa using this
    simp only [select_quality_based_on_speed]
    rw [hnone]
    rfl

theorem select_quality_ladder_spec_witness :
    (5 : ℚ) < 7 ∧ (7 : ℚ) ≤ 10 ∧
    select_quality_based_on_speed 7
      [("480p", "u480"), ("360p", "u360"), ("worst", "uw")] = some ("u480") :=
  ⟨by norm_num, by norm_num,
    ((select_quality_ladder_spec 7
      [("480p", "u480"), ("360p", "u360"), ("worst", "uw")]).2.1
      ⟨by norm_num, by norm_num⟩).trans (by decide)⟩


/-- C5 (code bug): after the consumer cancels (stops pulling) following
the first yielded frame, the handle is still referenced and no close call
was ever issued: the release after the infinite loop is unreachable and
there is no try/finally, so cancellation runs no cleanup. -/
theorem cancellation_leaves_handle_open :
    (run (execute_capture_start ("p") 0 15) [⟨true, 0, none⟩]).frames =
      [(0, Mode.primary)] ∧
    (run (execute_capture_start ("p") 0 15) [⟨true, 0, none⟩]).cap = true ∧
    (run (execute_capture_start ("p") 0 15) [⟨true, 0, none⟩]).closes = 0 := by
  decide

/-- C6 counterexample: at the primary-to-fallback handoff the reopened
primary handle is overwritten without a release: after the handoff 7 open
events have been issued against only 5 close calls with one handle
referenced, so one open call has no matching close. -/
theorem handoff_open_close_imbalance :
    (run (execute_capture_start ("p") 0 15)
      [⟨false, 1, none⟩, ⟨false, 2, none⟩, ⟨false, 3, none⟩, ⟨false, 4, none⟩,
       ⟨false, 100, some ("u")⟩]).opens = 7 ∧
    (run (execute_capture_start ("p") 0 15)
      [⟨false, 1, none⟩, ⟨false, 2, none⟩, ⟨false, 3, none⟩, ⟨false, 4, none⟩,
       ⟨false, 100, some ("u")⟩]).closes = 5 ∧
    (run (execute_capture_start ("p") 0 15)
      [⟨false, 1, none⟩, ⟨false, 2, none⟩, ⟨false, 3, none⟩, ⟨false, 4, none⟩,
       ⟨false, 100, some ("u")⟩]).cap = true ∧
    (run (execute_capture_start ("p") 0 15)
      [⟨false, 1, none⟩, ⟨false, 2, none⟩, ⟨false, 3, none⟩, ⟨false, 4, none⟩,
       ⟨false, 100, some ("u")⟩]).leaked = 1 := by
  decide

/-- C6 amended: open events always balance close events plus the
referenced handle plus the leaked handles; at most one handle is ever
leaked, the leak happening exactly at the fallback handoff (the primary
loop itself never leaks). -/
theorem open_close_accounting (url : String) (t0 T : Int)
    (l : List StepInput) :
    (run (execute_capture_start url t0 T) l).opens =
      (run (execute_capture_start url t0 T) l).closes +
      (if (run (execute_capture_start url t0 T) l).cap then 1 else 0) +
      (run (execute_capture_start url t0 T) l).leaked ∧
    (run (execute_capture_start url t0 T) l).leaked ≤ 1 ∧
    ((run (execute_capture_start url t0 T) l).mode = Mode.primary →
      (run (execute_capture_start url t0 T) l).leaked = 0) := by
  obtain ⟨hbal, hp, hfb, hd⟩ :=
    lifecycle_inv_run l _ (lifecycle_inv_start url t0 T)
  refine ⟨hbal, ?_, fun hmo => (hp hmo).1⟩
  cases hmode : (run (execute_capture_start url t0 T) l).mode with
  | primary =>
      have := (hp hmode).1
      omega
  | fallback =>
      have := hfb hmode
      omega
  | done => exact hd hmode

theorem open_close_accounting_witness :
    (run (execute_capture_start ("p") 0 15) []).opens =
      (run (execute_capture_start ("p") 0 15) []).closes +
      (if (run (execute_capture_start ("p") 0 15) []).cap then 1 else 0) +
      (run (execute_capture_start ("p") 0 15) []).leaked ∧
    (run (execute_capture_start ("p") 0 15) []).leaked ≤ 1 ∧
    ((run (execute_capture_start ("p") 0 15) []).mode = Mode.primary →
      (run (execute_capture_start ("p") 0 15) []).leaked = 0) :=
  open_close_accounting ("p") 0 15 []

/-- C7 counterexample: at the start of the fallback run the gate is NOT
initialised to now minus the capture interval but to now itself, so the
very first successful fallback read (here at the same instant 100) is not
eligible for emission. -/
theorem fallback_gate_not_preinitialised :
    (run (execute_capture_start ("p") 0 15)
      [⟨false, 1, none⟩, ⟨false, 2, none⟩, ⟨false, 3, none⟩, ⟨false, 4, none⟩,
       ⟨false, 100, some ("u")⟩]).mode = Mode.fallback ∧
    (run (execute_capture_start ("p") 0 15)
      [⟨false, 1, none⟩, ⟨false, 2, none⟩, ⟨false, 3, none⟩, ⟨false, 4, none⟩,
       ⟨false, 100, some ("u")⟩]).last_process_time = 100 ∧
    ¬ ((run (execute_capture_start ("p") 0 15)
      [⟨false, 1, none⟩, ⟨false, 2, none⟩, ⟨false, 3, none⟩, ⟨false, 4, none⟩,
       ⟨false, 100, some ("u")⟩]).last_process_time = 100 - 15) ∧
    (step (run (execute_capture_start ("p") 0 15)
      [⟨false, 1, none⟩, ⟨false, 2, none⟩, ⟨false, 3, none⟩, ⟨false, 4, none⟩,
       ⟨false, 100, some ("u")⟩]) ⟨true, 100, none⟩).frames = [] := by
  decide


/-- C7 amended: the primary loop initialises the gate to now minus the
capture interval, so its first successful read is always emitted; the
fallback loop initialises the gate to the fallback start time itself, so
its first successful read is emitted only once the capture interval has
elapsed since the fallback loop started. -/
theorem gate_initialisation_sites (url : String) (t0 T : Int)
    (s : EngineState) (i j k : StepInput)
    (hi : i.readOk = true) (hit : i.now = t0)
    (hj : isFalsy j.selectResult = false) (hk : k.readOk = true) :
    (execute_capture_start url t0 T).last_process_time = t0 - T ∧
    (step (execute_capture_start url t0 T) i).frames = [(t0, Mode.primary)] ∧
    (generic_init s j).last_process_time = j.now ∧
    (step (generic_init s j) k).frames =
      (if s.capture_interval ≤ k.now - j.now then
        (k.now, Mode.fallback) :: s.frames
      else s.frames) := by
  refine ⟨rfl, ?_, by simp [generic_init, hj], ?_⟩
  · rw [step_primary _ i rfl]
    simp only [primary_step, hi, if_pos, execute_capture_start, mk_engine,
      initialise_stream, emit_gate]
    rw [hit, if_pos (by omega : T ≤ t0 - (t0 - T))]
  · rw [step_fallback _ k (by simp [generic_init, hj, initialise_stream])]
    simp only [fallback_step, generic_init, hj, initialise_stream, emit_gate,
      Bool.false_eq_true, if_false, hk, Bool.and_true]
    split_ifs <;> simp_all


theorem gate_initialisation_sites_witness :
    (execute_capture_start ("p") 0 15).last_process_time = 0 - 15 ∧
    (step (execute_capture_start ("p") 0 15) ⟨true, 0, none⟩).frames =
      [(0, Mode.primary)] ∧
    (generic_init (execute_capture_start ("p") 0 15)
      ⟨false, 100, some ("u")⟩).last_process_time = 100 ∧
    (step (generic_init (execute_capture_start ("p") 0 15)
        ⟨false, 100, some ("u")⟩) ⟨true, 100, none⟩).frames =
      (if (execute_capture_start ("p") 0 15).capture_interval ≤ 100 - 100 then
        ((100 : Int), Mode.fallback) ::
          (execute_capture_start ("p") 0 15).frames
      else (execute_capture_start ("p") 0 15).frames) :=
  gate_initialisation_sites ("p") 0 15 (execute_capture_start ("p") 0 15)
    ⟨true, 0, none⟩ ⟨false, 100, some ("u")⟩ ⟨true, 100, none⟩
    rfl rfl (by decide) rfl

theorem primary_fail_handoff_falsy (s : EngineState) (i : StepInput)
    (hm : s.mode = Mode.primary) (hr : i.readOk = false)
    (hc : 5 ≤ s.fail_count + 1) (hs : s.successfully_captured = false)
    (hfal : isFalsy i.selectResult = true) :
    (step s i).mode = Mode.done ∧ (step s i).frames = s.frames := by
  rw [step_primary s i hm]
  simp only [primary_step, hr, Bool.false_eq_true, if_false,
    release_resources, initialise_stream, generic_init, hfal]
  split_ifs <;> simp_all

theorem fallback_refail_reresolve (s : EngineState) (i : StepInput)
    (hm : s.mode = Mode.fallback) (hs : s.successfully_captured = false)
    (hr : i.readOk = false) (hc : 4 ≤ s.fail_count)
    (hfal : isFalsy i.selectResult = true) :
    (step s i).mode = Mode.fallback ∧ (step s i).cap = false ∧
    (step s i).frames = s.frames ∧ (step s i).selects = s.selects + 1 ∧
    (step s i).successfully_captured = false ∧
    (step s i).fail_count = s.fail_count + 1 := by
  rw [step_fallback s i hm]
  simp only [fallback_step, hr, Bool.and_false, release_resources, hfal,
    initialise_stream]
  split_ifs <;> simp_all

theorem fallback_capless_reselect (s : EngineState) (j : StepInput)
    (hm : s.mode = Mode.fallback) (hs : s.successfully_captured = false)
    (hc : 4 ≤ s.fail_count) (hcap : s.cap = false) :
    (step s j).selects = s.selects + 1 := by
  rw [step_fallback s j hm]
  simp only [fallback_step, hcap, Bool.false_eq_true, if_false,
    Bool.false_and, release_resources, initialise_stream]
  split_ifs <;> simp_all


/-- C8: a falsy initial quality selection at the fallback entry ends the
generator at once with no frame ever emitted, while a falsy
failure-triggered re-resolution inside the fallback loop keeps the loop
alive with no handle, and the very next iteration attempts resolution
again. -/
theorem fallback_resolution_failure_semantics
    (s : EngineState) (i : StepInput) (l : List StepInput)
    (s2 : EngineState) (i2 j : StepInput)
    (hm : s.mode = Mode.primary) (hr : i.readOk = false)
    (hc : 5 ≤ s.fail_count + 1) (hs : s.successfully_captured = false)
    (hfal : isFalsy i.selectResult = true)
    (hm2 : s2.mode = Mode.fallback) (hs2 : s2.successfully_captured = false)
    (hr2 : i2.readOk = false) (hc2 : 4 ≤ s2.fail_count)
    (hfal2 : isFalsy i2.selectResult = true) :
    ((step s i).mode = Mode.done ∧ (step s i).frames = s.frames ∧
      run (step s i) l = step s i) ∧
    ((step s2 i2).mode = Mode.fallback ∧ (step s2 i2).cap = false ∧
      (step s2 i2).frames = s2.frames ∧
      (step s2 i2).selects = s2.selects + 1) ∧
    (step (step s2 i2) j).selects = (step s2 i2).selects + 1 := by
  obtain ⟨hdm, hdf⟩ := primary_fail_handoff_falsy s i hm hr hc hs hfal
  obtain ⟨e1, e2, e3, e4, e5, e6⟩ :=
    fallback_refail_reresolve s2 i2 hm2 hs2 hr2 hc2 hfal2
  refine ⟨⟨hdm, hdf, run_of_done _ l hdm⟩, ⟨e1, e2, e3, e4⟩, ?_⟩
  exact fallback_capless_reselect (step s2 i2) j e1 e5 (by omega) e2

theorem fallback_resolution_failure_semantics_witness :
    ((step (run (execute_capture_start ("p") 0 15)
        [⟨false, 1, none⟩, ⟨false, 2, none⟩, ⟨false, 3, none⟩,
         ⟨false, 4, none⟩]) ⟨false, 50, none⟩).mode = Mode.done ∧
      (step (run (execute_capture_start ("p") 0 15)
        [⟨false, 1, none⟩, ⟨false, 2, none⟩, ⟨false, 3, none⟩,
         ⟨false, 4, none⟩]) ⟨false, 50, none⟩).frames =
        (run (execute_capture_start ("p") 0 15)
          [⟨false, 1, none⟩, ⟨false, 2, none⟩, ⟨false, 3, none⟩,
           ⟨false, 4, none⟩]).frames ∧
      run (step (run (execute_capture_start ("p") 0 15)
          [⟨false, 1, none⟩, ⟨false, 2, none⟩, ⟨false, 3, none⟩,
           ⟨false, 4, none⟩]) ⟨false, 50, none⟩) [⟨true, 60, none⟩] =
        step (run (execute_capture_start ("p") 0 15)
          [⟨false, 1, none⟩, ⟨false, 2, none⟩, ⟨false, 3, none⟩,
           ⟨false, 4, none⟩]) ⟨false, 50, none⟩) ∧
    ((step (run (execute_capture_start ("p") 0 15)
        [⟨false, 1, none⟩, ⟨false, 2, none⟩, ⟨false, 3, none⟩,
         ⟨false, 4, none⟩, ⟨false, 100, some ("u")⟩, ⟨false, 101, none⟩,
         ⟨false, 102, none⟩, ⟨false, 103, none⟩, ⟨false, 104, none⟩])
        ⟨false, 300, none⟩).mode = Mode.fallback ∧
      (step (run (execute_capture_start ("p") 0 15)
        [⟨false, 1, none⟩, ⟨false, 2, none⟩, ⟨false, 3, none⟩,
         ⟨false, 4, none⟩, ⟨false, 100, some ("u")⟩, ⟨false, 101, none⟩,
         ⟨false, 102, none⟩, ⟨false, 103, none⟩, ⟨false, 104, none⟩])
        ⟨false, 300, none⟩).cap = false ∧
      (step (run (execute_capture_start ("p") 0 15)
        [⟨false, 1, none⟩, ⟨false, 2, none⟩, ⟨false, 3, none⟩,
         ⟨false, 4, none⟩, ⟨false, 100, some ("u")⟩, ⟨false, 101, none⟩,
         ⟨false, 102, none⟩, ⟨false, 103, none⟩, ⟨false, 104, none⟩])
        ⟨false, 300, none⟩).frames =
        (run (execute_capture_start ("p") 0 15)
          [⟨false, 1, none⟩, ⟨false, 2, none⟩, ⟨false, 3, none⟩,
           ⟨false, 4, none⟩, ⟨false, 100, some ("u")⟩, ⟨false, 101, none⟩,
           ⟨false, 102, none⟩, ⟨false, 103, none⟩, ⟨false, 104, none⟩]).frames ∧
      (step (run (execute_capture_start ("p") 0 15)
        [⟨false, 1, none⟩, ⟨false, 2, none⟩, ⟨false, 3, none⟩,
         ⟨false, 4, none⟩, ⟨false, 100, some ("u")⟩, ⟨false, 101, none⟩,
         ⟨false, 102, none⟩, ⟨false, 103, none⟩, ⟨false, 104, none⟩])
        ⟨false, 300, none⟩).selects =
        (run (execute_capture_start ("p") 0 15)
          [⟨false, 1, none⟩, ⟨false, 2, none⟩, ⟨false, 3, none⟩,
           ⟨false, 4, none⟩, ⟨false, 100, some ("u")⟩, ⟨false, 101, none⟩,
           ⟨false, 102, none⟩, ⟨false, 103, none⟩, ⟨false, 104, none⟩]).selects
          + 1) ∧
    (step (step (run (execute_capture_start ("p") 0 15)
        [⟨false, 1, none⟩, ⟨false, 2, none⟩, ⟨false, 3, none⟩,
         ⟨false, 4, none⟩, ⟨false, 100, some ("u")⟩, ⟨false, 101, none⟩,
         ⟨false, 102, none⟩, ⟨false, 103, none⟩, ⟨false, 104, none⟩])
        ⟨false, 300, none⟩) ⟨true, 400, some ("x")⟩).selects =
      (step (run (execute_capture_start ("p") 0 15)
        [⟨false, 1, none⟩, ⟨false, 2, none⟩, ⟨false, 3, none⟩,
         ⟨false, 4, none⟩, ⟨false, 100, some ("u")⟩, ⟨false, 101, none⟩,
         ⟨false, 102, none⟩, ⟨false, 103, none⟩, ⟨false, 104, none⟩])
        ⟨false, 300, none⟩).selects + 1 :=
  fallback_resolution_failure_semantics
    (run (execute_capture_start ("p") 0 15)
      [⟨false, 1, none⟩, ⟨false, 2, none⟩, ⟨false, 3, none⟩, ⟨false, 4, none⟩])
    ⟨false, 50, none⟩ [⟨true, 60, none⟩]
    (run (execute_capture_start ("p") 0 15)
      [⟨false, 1, none⟩, ⟨false, 2, none⟩, ⟨false, 3, none⟩, ⟨false, 4, none⟩,
       ⟨false, 100, some ("u")⟩, ⟨false, 101, none⟩, ⟨false, 102, none⟩,
       ⟨false, 103, none⟩, ⟨false, 104, none⟩])
    ⟨false, 300, none⟩ ⟨true, 400, some ("x")⟩
    (by decide) rfl (by decide) (by decide) rfl
    (by decide) (by decide) rfl (by decide) rfl

end StreamCapture
